import Mathlib

/-!
Shallow embedding of the lesson registry, selector resolver, lister and
dispatcher of the rust-learn repository (src/src/lessons/mod.rs and
src/src/main.rs), together with theorems settling the specification claims.

The Rust `Lesson` struct carries a `run: fn()` field, an opaque
side-effect-only capability; the embedding models which lesson is selected
(and therefore run), since the lesson bodies are outside the specified core.
-/

deriving instance DecidableEq for Except

namespace Lessons

/-- One registry entry, per the `Lesson` struct generated by the
`register_lessons` macro in src/src/lessons/mod.rs (the effectful `run`
field is not modelled; resolution returns the selected lesson instead). -/
structure Lesson where
  number : Nat
  slug : String
  title : String
deriving DecidableEq, Repr

/-- Value of an ASCII digit string, most significant first. -/
def digitsToNat (cs : List Char) : Nat :=
  cs.foldl (fun a c => a * 10 + (c.toNat - 48)) 0

/-- Largest usize value on a 64-bit target. -/
def usizeMax : Nat := 2 ^ 64 - 1

/-- Semantics of Rust `sel.parse::<usize>()`: an optional leading plus sign,
then one or more ASCII decimal digits, with the value required to fit in
usize; anything else (empty string, lone sign, other characters,
overflow) is a parse error, modelled as `none`. -/
def parseUsize (s : String) : Option Nat :=
  let ds := match s.data with
    | '+' :: rest => rest
    | cs => cs
  if ds ≠ [] ∧ ds.all Char.isDigit ∧ digitsToNat ds ≤ usizeMax then
    some (digitsToNat ds)
  else
    none

/-- The registry builder `all()` from src/src/lessons/mod.rs: the
`register_lessons!` invocation expanded, in declaration order. -/
def all : Unit → List Lesson := fun _ =>
  [ ⟨1, "hello_world", "Hello, world & Project Layout"⟩,
    ⟨2, "variables", "Variables & Mutability"⟩,
    ⟨3, "types", "Scalar & Compound Types"⟩,
    ⟨4, "functions", "Functions & Parameters"⟩,
    ⟨5, "control_flow", "if / loop / while / match"⟩,
    ⟨6, "ownership", "Ownership Basics"⟩,
    ⟨7, "borrowing", "Borrowing & References"⟩,
    ⟨8, "slices", "String & Array Slices"⟩,
    ⟨9, "structs", "Structs & Update Syntax"⟩,
    ⟨10, "enums_matching", "Enums & Pattern Matching"⟩,
    ⟨11, "methods_assoc_fn", "Methods & Associated Fns"⟩,
    ⟨12, "generics", "Generics"⟩,
    ⟨13, "traits", "Traits & Trait Bounds"⟩,
    ⟨14, "lifetimes", "Lifetimes Basics"⟩,
    ⟨15, "collections", "Vec / String / HashMap"⟩,
    ⟨16, "iterators_closures", "Iterators & Closures"⟩,
    ⟨17, "error_handling", "Result / Option / ? operator"⟩,
    ⟨18, "modules_crates", "Modules / Crates / Paths"⟩,
    ⟨19, "macros_basics", "Macros Basics"⟩ ]

/-- The registry as built once at the start of the process. -/
def lessonsAll : List Lesson := all ()

/-- The error string `format!("Lesson '{}' not found", sel)`. -/
def notFoundMsg (sel : String) : String :=
  "Lesson \x27" ++ sel ++ "\x27 not found"

/-- The numeric phase of `run_selected`: `if let Ok(n) = sel.parse::<usize>()`
followed by `lessons.iter().find(|l| l.number == n)`. -/
def numericPhase (lessons : List Lesson) (sel : String) : Option Lesson :=
  match parseUsize sel with
  | some n => lessons.find? (fun l => l.number == n)
  | none => none

/-- `run_selected` from src/src/lessons/mod.rs, abstracted over the registry
it searches (the source fixes it to `all()`); returns the lesson that gets
run, or the error string. -/
def run_selected_core (lessons : List Lesson) (sel : String) :
    Except String Lesson :=
  match numericPhase lessons sel with
  | some l => Except.ok l
  | none =>
    match lessons.find? (fun l => l.slug == sel) with
    | some l => Except.ok l
    | none => Except.error (notFoundMsg sel)

/-- `run_selected(sel)` as in the source: the search is over `all()`. -/
def run_selected (sel : String) : Except String Lesson :=
  run_selected_core lessonsAll sel

/-- Zero padding to a minimum width, the `{:02}` format. -/
def padLeft0 (w : Nat) (s : String) : String :=
  String.mk (List.replicate (w - s.length) '0') ++ s

/-- Space padding on the right to a minimum width, the `{:<24}` format. -/
def padRight (w : Nat) (s : String) : String :=
  s ++ String.mk (List.replicate (w - s.length) ' ')

/-- One line of `list()` output: `println!("{:02}  {:<24} {}", ...)`. -/
def listLine (l : Lesson) : String :=
  padLeft0 2 (toString l.number) ++ "  " ++ padRight 24 l.slug ++ " " ++ l.title

/-- The lines printed by iterating over a registry, as `list()` does. -/
def listOutput (lessons : List Lesson) : List String :=
  lessons.map listLine

/-- `list()` from src/src/lessons/mod.rs: one formatted line per entry of
`all()`, in order, written to standard output. -/
def list : Unit → List String := fun _ => listOutput (all ())

end Lessons

open Lessons

/-- The eight lines `print_help()` writes to the error stream
(src/src/main.rs). -/
def helpLines : List String :=
  [ "Usage:",
    "  cargo run -- list",
    "  cargo run -- <lesson>",
    "",
    "Examples:",
    "  cargo run -- list           # 列出所有 lessons",
    "  cargo run -- 01_hello_world # 运行指定 lesson",
    "  cargo run -- 1              # 通过编号运行 lesson" ]

/-- Observable outcome of one `main` run: the lines written to the error
stream and the process exit code. -/
structure MainOutcome where
  stderrLines : List String
  exitCode : Nat
deriving DecidableEq, Repr

/-- `main` from src/src/main.rs on the argument vector after the program
name: empty → help to stderr, exit 0; first token `list` → listing to
stdout, exit 0; otherwise resolve, and on error print `Error: {e}` and the
help text to stderr and exit 1. -/
def rustMain (args : List String) : MainOutcome :=
  match args with
  | [] => ⟨helpLines, 0⟩
  | tok :: _ =>
    if tok = "list" then ⟨[], 0⟩
    else
      match run_selected tok with
      | Except.ok _ => ⟨[], 0⟩
      | Except.error e => ⟨("Error: " ++ e) :: helpLines, 1⟩

/-! Helper lemmas (shared; not tied to any single claim). -/

/-- A list's `find?` returns the element at index `i` when that element
satisfies the predicate and every earlier element fails it. -/
theorem find_first_of_take {α : Type} (p : α → Bool) :
    ∀ (l : List α) (i : Nat) (hi : i < l.length),
      p (l.get ⟨i, hi⟩) = true →
      (∀ a ∈ l.take i, p a = false) →
      l.find? p = some (l.get ⟨i, hi⟩) := by
  intro l
  induction l with
  | nil => intro i hi _ _; exact absurd hi (Nat.not_lt_zero i)
  | cons a t ih =>
    intro i hi hp hfirst
    cases i with
    | zero =>
      exact List.find?_cons_of_pos t hp
    | succ n =>
      have ha : p a = false := hfirst a (by simp [List.take_succ_cons])
      have hrec : t.find? p = some (t.get ⟨n, Nat.lt_of_succ_lt_succ hi⟩) := by
        refine ih n (Nat.lt_of_succ_lt_succ hi) hp ?_
        intro x hx
        exact hfirst x (by simp [List.take_succ_cons, hx])
      rw [List.find?_cons_of_neg t (by simp [ha]), hrec]
      rfl

/-- Whenever `run_selected_core` fails, its error string is exactly the
not-found message for the selector. -/
theorem run_selected_core_error_eq (lessons : List Lessons.Lesson)
    (sel e : String)
    (h : Lessons.run_selected_core lessons sel = Except.error e) :
    e = Lessons.notFoundMsg sel := by
  unfold Lessons.run_selected_core at h
  split at h
  · cases h
  · split at h
    · cases h
    · injection h with h2
      exact h2.symm

/-- Claim C1: the selector resolver is two-phase, first-match, in registry
order. If the selector parses as a non-negative integer and the descriptor
at index `i` is the first one whose number equals the parsed value, the
resolver returns it, with no condition on any slug (so even if another
descriptor's slug equals the literal selector text). Only when parsing
fails or no number matches does the resolver return the first descriptor
whose slug equals the selector. -/
theorem run_selected_two_phase (lessons : List Lesson) (sel : String)
    (i : Nat) (hi : i < lessons.length) :
    ((∃ n, parseUsize sel = some n ∧ (lessons.get ⟨i, hi⟩).number = n ∧
        ∀ a ∈ lessons.take i, a.number ≠ n) →
      run_selected_core lessons sel = Except.ok (lessons.get ⟨i, hi⟩))
    ∧ (((∀ a ∈ lessons, parseUsize sel ≠ some a.number) ∧
        (lessons.get ⟨i, hi⟩).slug = sel ∧
        ∀ a ∈ lessons.take i, a.slug ≠ sel) →
      run_selected_core lessons sel = Except.ok (lessons.get ⟨i, hi⟩)) := by
  constructor
  · rintro ⟨n, hparse, hnum, hfirst⟩
    have hfind : lessons.find? (fun l => l.number == n) =
        some (lessons.get ⟨i, hi⟩) := by
      refine find_first_of_take _ lessons i hi ?_ ?_
      · simpa using hnum
      · intro a ha
        simpa using hfirst a ha
    unfold run_selected_core numericPhase
    rw [hparse]
    simp only [hfind]
  · rintro ⟨hno, hslug, hfirst⟩
    have hnp : numericPhase lessons sel = none := by
      unfold numericPhase
      cases hp : parseUsize sel with
      | none => rfl
      | some n =>
        simp only [List.find?_eq_none]
        intro a ha hba
        have : a.number = n := by simpa using hba
        exact hno a ha (by rw [hp, this])
    have hfind : lessons.find? (fun l => l.slug == sel) =
        some (lessons.get ⟨i, hi⟩) := by
      refine find_first_of_take _ lessons i hi ?_ ?_
      · simpa using hslug
      · intro a ha
        simpa using hfirst a ha
    unfold run_selected_core
    rw [hnp]
    simp only [hfind]

/-- Witness for C1: in a registry where the descriptor at index 0 has slug
`"7"` and the descriptor at index 1 has number 7, the selector `"7"`
resolves numerically to index 1, overriding the exact slug match at index
0. -/
theorem run_selected_two_phase_witness :
    run_selected_core
        [⟨2, "7", "slug is seven"⟩, ⟨7, "seven", "number is seven"⟩] "7" =
      Except.ok ⟨7, "seven", "number is seven"⟩ :=
  (run_selected_two_phase
      [⟨2, "7", "slug is seven"⟩, ⟨7, "seven", "number is seven"⟩] "7"
      1 (by decide)).1
    ⟨7, by decide, by decide, by decide⟩

/-- Claim C2: for every descriptor in the registry, resolving the selector
equal to the decimal string of its number yields exactly that
descriptor. -/
theorem numeric_lookup_correct (d : Lesson) (hd : d ∈ lessonsAll) :
    run_selected (toString d.number) = Except.ok d := by
  revert hd
  revert d
  decide

/-- Witness for C2: resolving `"1"`, the decimal string of lesson 1's
number, runs lesson 1. -/
theorem numeric_lookup_correct_witness :
    run_selected "1" =
      Except.ok ⟨1, "hello_world", "Hello, world & Project Layout"⟩ :=
  numeric_lookup_correct ⟨1, "hello_world", "Hello, world & Project Layout"⟩
    (by decide)

/-- Claim C3: for every descriptor in the registry, resolving the selector
equal to its slug (exact, case-sensitive comparison) yields exactly that
descriptor. -/
theorem slug_lookup_correct (d : Lesson) (hd : d ∈ lessonsAll) :
    run_selected d.slug = Except.ok d := by
  revert hd
  revert d
  decide

/-- Witness for C3: resolving `"borrowing"` runs lesson 7. -/
theorem slug_lookup_correct_witness :
    run_selected "borrowing" =
      Except.ok ⟨7, "borrowing", "Borrowing & References"⟩ :=
  slug_lookup_correct ⟨7, "borrowing", "Borrowing & References"⟩ (by decide)

/-- Claim C4: a selector that neither parses to the number of any registry
descriptor nor equals any descriptor's slug fails with the single
not-found error carrying the unmodified selector text. -/
theorem not_found_error (sel : String)
    (hnum : ∀ l ∈ lessonsAll, parseUsize sel ≠ some l.number)
    (hslug : ∀ l ∈ lessonsAll, l.slug ≠ sel) :
    run_selected sel =
      Except.error ("Lesson \x27" ++ sel ++ "\x27 not found") := by
  have hnp : numericPhase lessonsAll sel = none := by
    unfold numericPhase
    cases hp : parseUsize sel with
    | none => rfl
    | some n =>
      simp only [List.find?_eq_none]
      intro a ha hba
      have : a.number = n := by simpa using hba
      exact hnum a ha (by rw [hp, this])
  have hfs : lessonsAll.find? (fun l => l.slug == sel) = none := by
    simp only [List.find?_eq_none]
    intro a ha hba
    exact hslug a ha (by simpa using hba)
  unfold run_selected run_selected_core
  rw [hnp]
  simp only [hfs]
  rfl

/-- Witness for C4: resolving `"999"` (a number absent from the registry)
and `"nonexistent_slug"` (a slug absent from the registry) both fail with
the not-found message carrying the exact selector text. -/
theorem not_found_error_witness :
    run_selected "999" = Except.error "Lesson \x27999\x27 not found" ∧
    run_selected "nonexistent_slug" =
      Except.error "Lesson \x27nonexistent_slug\x27 not found" :=
  ⟨not_found_error "999" (by decide) (by decide),
   not_found_error "nonexistent_slug" (by decide) (by decide)⟩

/-- Counterexample to claim C5: resolving `"01"` does not yield the
not-found error; it succeeds and runs lesson 1, because Rust usize parsing
accepts leading zeros (`"01"` parses to 1). -/
theorem resolve_leading_zero_succeeds :
    run_selected "01" =
        Except.ok ⟨1, "hello_world", "Hello, world & Project Layout"⟩ ∧
      run_selected "01" ≠ Except.error "Lesson \x2701\x27 not found" := by
  decide

/-- Claim C5 as amended: against the actual registry, resolving `"1"` and
`"hello_world"` both yield the descriptor with number 1 and slug
`"hello_world"`, and resolving `"01"` also yields that descriptor, since
the numeric phase parses `"01"` to 1 (leading zeros are accepted by usize
parsing, so numeric-string normalization does happen via parsing). -/
theorem scenario_hello_world :
    run_selected "1" =
        Except.ok ⟨1, "hello_world", "Hello, world & Project Layout"⟩ ∧
      run_selected "hello_world" =
        Except.ok ⟨1, "hello_world", "Hello, world & Project Layout"⟩ ∧
      run_selected "01" =
        Except.ok ⟨1, "hello_world", "Hello, world & Project Layout"⟩ := by
  decide

/-- Claim C6: registry uniqueness — for every pair of distinct descriptors
in the registry built by `all()`, the numbers differ and the slugs
differ. -/
theorem registry_unique :
    lessonsAll.Pairwise (fun a b => a.number ≠ b.number ∧ a.slug ≠ b.slug) := by
  decide

/-- Claim C7: the lister emits exactly one line per descriptor, in registry
order (the line at index `i` comes from the descriptor at index `i`), and
each line is the number zero-padded to at least two digits, two spaces,
the slug left-justified in a minimum field width of 24, a space, and the
title. -/
theorem lister_format (i : Nat) (hi : i < lessonsAll.length) :
    (Lessons.list ()).length = lessonsAll.length ∧
    (Lessons.list ())[i]? = some (listLine (lessonsAll.get ⟨i, hi⟩)) ∧
    listLine (lessonsAll.get ⟨i, hi⟩) =
      padLeft0 2 (toString (lessonsAll.get ⟨i, hi⟩).number) ++ "  " ++
        padRight 24 (lessonsAll.get ⟨i, hi⟩).slug ++ " " ++
        (lessonsAll.get ⟨i, hi⟩).title := by
  refine ⟨rfl, ?_, rfl⟩
  show (listOutput lessonsAll)[i]? = _
  rw [listOutput, List.getElem?_map, List.getElem?_eq_getElem hi]
  simp [List.get_eq_getElem]

/-- Witness for C7: the listing has 19 lines and its first line is lesson
1's number zero-padded to two digits, two spaces, the slug padded right to
24 columns, a space, and the title. -/
theorem lister_format_witness :
    (Lessons.list ()).length = lessonsAll.length ∧
    (Lessons.list ())[0]? =
      some "01  hello_world              Hello, world & Project Layout" := by
  have h := lister_format 0 (by decide)
  exact ⟨h.1, h.2.1.trans (by decide)⟩

/-- Claim C8: dispatcher outcome mapping. With no selector token, `main`
prints the help text to stderr and exits normally (code 0) taking no
further action; with the `list` token or a token that resolves, it exits
normally with no stderr output; with a token whose resolution fails, it
prints `Error: <message>` (a message containing the original token),
then the help text, to stderr, and exits with code 1. -/
theorem dispatcher_outcomes (tok : String) (rest : List String) :
    rustMain [] = ⟨helpLines, 0⟩
    ∧ rustMain ("list" :: rest) = ⟨[], 0⟩
    ∧ (∀ l, tok ≠ "list" → run_selected tok = Except.ok l →
        rustMain (tok :: rest) = ⟨[], 0⟩)
    ∧ (∀ e, tok ≠ "list" → run_selected tok = Except.error e →
        rustMain (tok :: rest) = ⟨("Error: " ++ e) :: helpLines, 1⟩
        ∧ ∃ a b, "Error: " ++ e = a ++ tok ++ b) := by
  refine ⟨rfl, by simp [rustMain], ?_, ?_⟩
  · intro l hne hok
    simp [rustMain, hne, hok]
  · intro e hne herr
    refine ⟨by simp [rustMain, hne, herr], ?_⟩
    have he : e = notFoundMsg tok :=
      run_selected_core_error_eq lessonsAll tok e herr
    refine ⟨"Error: Lesson \x27", "\x27 not found", ?_⟩
    rw [he]
    show "Error: " ++ ("Lesson \x27" ++ tok ++ "\x27 not found") = _
    rw [← String.append_assoc, ← String.append_assoc]
    have hlit : ("Error: " ++ "Lesson \x27" : String) = "Error: Lesson \x27" := by
      decide
    rw [hlit]

/-- Witness for C8: the argument vector `["999"]` produces an error line
containing the token `999`, followed by the help lines, on stderr, and
exit code 1. -/
theorem dispatcher_outcomes_witness :
    rustMain ["999"] =
        ⟨("Error: " ++ "Lesson \x27999\x27 not found") :: helpLines, 1⟩
      ∧ ∃ a b, "Error: " ++ "Lesson \x27999\x27 not found" = a ++ "999" ++ b :=
  (dispatcher_outcomes "999" []).2.2.2 "Lesson \x27999\x27 not found"
    (by decide) (by decide)

/-- Claim C9: the registry builder and the lister are pure and
deterministic — any two calls to `all` return the same ordered list of
descriptors, and any two invocations of `list` produce identical
output. -/
theorem builder_and_lister_deterministic (u v : Unit) :
    Lessons.all u = Lessons.all v ∧ Lessons.list u = Lessons.list v :=
  ⟨rfl, rfl⟩

/-- Claim C10: the numeric phase accepts a leading plus sign, as Rust usize
parsing does: `"+7"` resolves to the descriptor with number 7, although
`"+7"` is not the decimal string of any registered number and matches no
slug. -/
theorem plus_sign_selector :
    parseUsize "+7" = some 7
    ∧ run_selected "+7" = Except.ok ⟨7, "borrowing", "Borrowing & References"⟩
    ∧ (∀ l ∈ lessonsAll, toString l.number ≠ "+7")
    ∧ (∀ l ∈ lessonsAll, l.slug ≠ "+7") := by
  decide
